import Mathlib

/-
Verification development for the agenticAI repository.

The repository has two Python files:
  * scripts/handle_changed_files.py - the CI batch driver: enumerates changed
    files between two revisions, filters them by path policy, and for each
    surviving file asks a team of three reviewer agents for a report that it
    writes under reports/.
  * source/app.py - the Flask interactive driver: a /team endpoint that
    resolves a session token, runs the team in streaming mode, and a /image
    endpoint serving a one-shot generated image.

The definitions below are a shallow embedding of that code.  External
effects (reading files, the team backend call, writing of a report) are
parameters of the embedding, supplied as possibly-failing functions, so that
the control flow of the scripts themselves is modelled faithfully.
-/

namespace AgenticAI

/-! ## Path helpers (os.path.basename, os.path.splitext, filtering) -/

/-- Embedding of the path filter on line 99 of handle_changed_files.py:
line.startswith the source directory and line.endswith .py or .js. -/
def acceptPath (line : String) : Bool :=
  ("source/".toList.isPrefixOf line.toList) &&
    ((".py".toList.isSuffixOf line.toList) || (".js".toList.isSuffixOf line.toList))

/-- Embedding of os.path.basename: the part of the path after the last
slash. -/
def basename (s : String) : String :=
  String.mk ((s.toList.reverse.takeWhile (fun c => c ≠ '/')).reverse)

/-- Embedding of os.path.splitext for a plain file name (the script only
applies it to a basename, which contains no slash): split at the last dot,
except that leading dots of the name never start an extension. -/
def splitext (s : String) : String × String :=
  let cs := s.toList
  let extRev := cs.reverse.takeWhile (fun c => c ≠ '.')
  if extRev.length = cs.length then (s, "")
  else
    let nameLen := cs.length - extRev.length - 1
    if (cs.take nameLen).all (fun c => c = '.') then (s, "")
    else (String.mk (cs.take nameLen), String.mk (cs.drop nameLen))

/-- Embedding of lines 110-112 of handle_changed_files.py: the report path
derived from an artifact path, os.path.join of reports with the base name
and the .md extension. -/
def outputPathFor (line : String) : String :=
  "reports/" ++ (splitext (basename line)).1 ++ ".md"

/-- Embedding of make_prompt in handle_changed_files.py. -/
def make_prompt (file_contents : String) : String :=
  "\n        Solicit input from other agents regarding the following source code:\n    \n        [START SOURCE CODE]\n        " ++
    file_contents ++
    "\n        [END SOURCE CODE]\n\n        Important: This source code must be provided to all other agents.\n        "

/-! ## The batch driver loop (lines 98-123 of handle_changed_files.py) -/

/-- External effects of one batch iteration.  readFile models open and read
(may raise), teamRun models team.run (may raise), writeErr injects a failure
of the report write (some e models a raised exception, none a successful
write). -/
structure BatchEnv where
  readFile : String → Except String String
  teamRun : String → Except String String
  writeErr : String → String → Option String

/-- State observable from outside the loop: the reports directory as an
association list from path to content, most recent write first, and the
console log. -/
structure BatchState where
  reports : List (String × String)
  log : List String
deriving Repr, DecidableEq

/-- The body of the try block for one accepted line: read the file, derive
the output path, run the team, write the report.  Any failure is returned
as an error carrying the message of the raised exception. -/
def processArtifact (env : BatchEnv) (line : String) : Except String (String × String) :=
  match env.readFile line with
  | .error e => .error e
  | .ok contents =>
    match env.teamRun (make_prompt contents) with
    | .error e => .error e
    | .ok report =>
      match env.writeErr (outputPathFor line) report with
      | some e => .error e
      | none => .ok (outputPathFor line, report)

/-- One iteration of the for loop: lines not passing the filter are skipped
silently; for accepted lines the Processing message is printed, and any
exception from the try block is caught and printed with the path and the
error, leaving the reports unchanged. -/
def processLine (env : BatchEnv) (st : BatchState) (line : String) : BatchState :=
  if acceptPath line then
    match processArtifact env line with
    | .ok pr =>
        { reports := pr :: st.reports,
          log := st.log ++ ["Processing " ++ line] }
    | .error e =>
        { reports := st.reports,
          log := st.log ++ ["Processing " ++ line,
                            "Error processing " ++ line ++ ": (" ++ e ++ ")"] }
  else st

/-- The loop over the changed-file list starting from a given state. -/
def batchRunFrom (env : BatchEnv) (st : BatchState) (lines : List String) : BatchState :=
  lines.foldl (processLine env) st

/-- The whole batch run from the initial empty state. -/
def batchRun (env : BatchEnv) (lines : List String) : BatchState :=
  batchRunFrom env { reports := [], log := [] } lines

/-- The process exit code: the script has no exit call and every iteration
catches its exceptions, so the run is total and the script always reaches
the end of the module, exiting with code 0. -/
def batchExitCode (env : BatchEnv) (lines : List String) : Nat :=
  let _ := batchRun env lines
  0

/-! ## Theorems about the batch driver -/

/-- C1: any exception while processing one artifact (reading it, running the
aggregator, or writing its report) is caught and logged with that artifact's
path and the error, the reports are unchanged, processing continues with the
next artifact, and the process exit code is 0 regardless of the failure. -/
theorem batch_per_artifact_isolation (env : BatchEnv) (st : BatchState)
    (line : String) (rest : List String) (e : String)
    (hacc : acceptPath line = true)
    (herr : processArtifact env line = .error e) :
    processLine env st line =
      { reports := st.reports,
        log := st.log ++ ["Processing " ++ line,
                          "Error processing " ++ line ++ ": (" ++ e ++ ")"] } ∧
    batchRunFrom env st (line :: rest) = batchRunFrom env (processLine env st line) rest ∧
    batchExitCode env (line :: rest) = 0 := by
  refine ⟨?_, rfl, rfl⟩
  simp [processLine, hacc, herr]

theorem batch_per_artifact_isolation_witness :
    acceptPath "source/app.py" = true ∧
    processArtifact ⟨fun _ => .error "boom", fun p => .ok p, fun _ _ => none⟩
      "source/app.py" = .error "boom" ∧
    (processLine ⟨fun _ => .error "boom", fun p => .ok p, fun _ _ => none⟩
        ⟨[], []⟩ "source/app.py" =
      { reports := ([] : List (String × String)),
        log := ([] : List String) ++ ["Processing " ++ "source/app.py",
          "Error processing " ++ "source/app.py" ++ ": (" ++ "boom" ++ ")"] } ∧
    batchRunFrom ⟨fun _ => .error "boom", fun p => .ok p, fun _ _ => none⟩
        ⟨[], []⟩ ("source/app.py" :: ["source/widget.js"]) =
      batchRunFrom ⟨fun _ => .error "boom", fun p => .ok p, fun _ _ => none⟩
        (processLine ⟨fun _ => .error "boom", fun p => .ok p, fun _ _ => none⟩
          ⟨[], []⟩ "source/app.py") ["source/widget.js"] ∧
    batchExitCode ⟨fun _ => .error "boom", fun p => .ok p, fun _ _ => none⟩
      ("source/app.py" :: ["source/widget.js"]) = 0) :=
  ⟨by decide, rfl,
    batch_per_artifact_isolation _ _ _ _ _ (by decide) rfl⟩

/-- C2: on the changed-file list [source/app.py, README.md, source/widget.js]
with every read, team run and write succeeding, exactly two reports are
written, reports/app.md and reports/widget.md (most recent first in the
state), README.md is skipped, and in general a line failing the
root-and-extension filter leaves the state untouched. -/
theorem batch_filter_scenario (env : BatchEnv)
    (hread : ∀ p, ∃ c, env.readFile p = .ok c)
    (hteam : ∀ p, ∃ r, env.teamRun p = .ok r)
    (hwrite : ∀ p c, env.writeErr p c = none) :
    (batchRun env ["source/app.py", "README.md", "source/widget.js"]).reports.map
        Prod.fst = ["reports/widget.md", "reports/app.md"] ∧
    (∀ st line, acceptPath line = false → processLine env st line = st) := by
  obtain ⟨c1, hc1⟩ := hread "source/app.py"
  obtain ⟨c2, hc2⟩ := hread "source/widget.js"
  obtain ⟨r1, hr1⟩ := hteam (make_prompt c1)
  obtain ⟨r2, hr2⟩ := hteam (make_prompt c2)
  have ha1 : acceptPath "source/app.py" = true := by decide
  have ha2 : acceptPath "README.md" = false := by decide
  have ha3 : acceptPath "source/widget.js" = true := by decide
  have ho1 : outputPathFor "source/app.py" = "reports/app.md" := by decide
  have ho3 : outputPathFor "source/widget.js" = "reports/widget.md" := by decide
  refine ⟨?_, fun st line h => by simp [processLine, h]⟩
  simp [batchRun, batchRunFrom, List.foldl, processLine, processArtifact,
    ha1, ha2, ha3, hc1, hc2, hr1, hr2, hwrite, ho1, ho3]

theorem batch_filter_scenario_witness :
    (∀ p, ∃ c, (BatchEnv.mk (fun _ => .ok "code") (fun _ => .ok "report")
        (fun _ _ => none)).readFile p = .ok c) ∧
    ((batchRun (BatchEnv.mk (fun _ => .ok "code") (fun _ => .ok "report")
          (fun _ _ => none))
        ["source/app.py", "README.md", "source/widget.js"]).reports.map
        Prod.fst = ["reports/widget.md", "reports/app.md"] ∧
      (∀ st line, acceptPath line = false →
        processLine (BatchEnv.mk (fun _ => .ok "code") (fun _ => .ok "report")
          (fun _ _ => none)) st line = st)) :=
  ⟨fun _ => ⟨"code", rfl⟩,
    batch_filter_scenario _ (fun _ => ⟨"code", rfl⟩) (fun _ => ⟨"report", rfl⟩)
      (fun _ _ => rfl)⟩

/-- C4: when the team call raises for an artifact, the try block fails
before the write, so no report is recorded for that artifact and the
reports are exactly as before. -/
theorem batch_no_report_on_team_failure (env : BatchEnv) (st : BatchState)
    (line contents e : String)
    (hacc : acceptPath line = true)
    (hread : env.readFile line = .ok contents)
    (hteam : env.teamRun (make_prompt contents) = .error e) :
    processArtifact env line = .error e ∧
    (processLine env st line).reports = st.reports := by
  have h : processArtifact env line = .error e := by
    simp [processArtifact, hread, hteam]
  exact ⟨h, by simp [processLine, hacc, h]⟩

theorem batch_no_report_on_team_failure_witness :
    acceptPath "source/app.py" = true ∧
    (BatchEnv.mk (fun _ => .ok "code") (fun _ => .error "down")
      (fun _ _ => none)).readFile "source/app.py" = .ok "code" ∧
    (processArtifact (BatchEnv.mk (fun _ => .ok "code") (fun _ => .error "down")
        (fun _ _ => none)) "source/app.py" = .error "down" ∧
      (processLine (BatchEnv.mk (fun _ => .ok "code") (fun _ => .error "down")
          (fun _ _ => none)) ⟨[("reports/old.md", "old")], []⟩
        "source/app.py").reports = [("reports/old.md", "old")]) :=
  ⟨by decide, rfl,
    batch_no_report_on_team_failure _ _ _ "code" "down" (by decide) rfl rfl⟩

/-- C5: two processed artifacts that share a base name are given the same
output path reports/ base .md, and after processing both the report stored
at that path is the one of the later artifact: the later write silently
overwrites the earlier one. -/
theorem batch_basename_collision_overwrite
    (env : BatchEnv) (p₁ p₂ c₁ c₂ r₁ r₂ : String)
    (hacc₁ : acceptPath p₁ = true) (hacc₂ : acceptPath p₂ = true)
    (hbase : basename p₁ = basename p₂)
    (hrd₁ : env.readFile p₁ = .ok c₁) (hrd₂ : env.readFile p₂ = .ok c₂)
    (ht₁ : env.teamRun (make_prompt c₁) = .ok r₁)
    (ht₂ : env.teamRun (make_prompt c₂) = .ok r₂)
    (hw : ∀ p c, env.writeErr p c = none) :
    outputPathFor p₁ = outputPathFor p₂ ∧
    (batchRun env [p₁, p₂]).reports.lookup (outputPathFor p₁) = some r₂ := by
  have hout : outputPathFor p₁ = outputPathFor p₂ := by
    unfold outputPathFor; rw [hbase]
  refine ⟨hout, ?_⟩
  simp [batchRun, batchRunFrom, List.foldl, processLine, processArtifact,
    hacc₁, hacc₂, hrd₁, hrd₂, ht₁, ht₂, hw]
  rw [hout]
  simp [List.lookup]

theorem batch_basename_collision_overwrite_witness :
    acceptPath "source/a/app.py" = true ∧
    acceptPath "source/b/app.py" = true ∧
    basename "source/a/app.py" = basename "source/b/app.py" ∧
    (outputPathFor "source/a/app.py" = outputPathFor "source/b/app.py" ∧
      (batchRun (BatchEnv.mk (fun p => .ok p) (fun p => .ok p) (fun _ _ => none))
          ["source/a/app.py", "source/b/app.py"]).reports.lookup
        (outputPathFor "source/a/app.py") =
        some (make_prompt "source/b/app.py")) :=
  ⟨by decide, by decide, by decide,
    batch_basename_collision_overwrite _ _ _ _ _ _ _
      (by decide) (by decide) (by decide) rfl rfl rfl rfl (fun _ _ => rfl)⟩

/-! ## The reviewer team (lines 36-93 of handle_changed_files.py)

The script declares three reviewer agents and a Team in collaborate mode
whose members list is, in declared order: the security agent, the debugging
agent, the optimization agent.  The aggregation performed by Team.run lives
in the agno library, outside this repository's sources, so it is modelled
from the spec below. -/

/-- The three reviewer roles declared in handle_changed_files.py. -/
inductive Role where
  | security
  | debugging
  | optimization
deriving DecidableEq, Repr

/-- The members list of the Team declaration, in declared order. -/
def teamMembers : List Role := [Role.security, Role.debugging, Role.optimization]

/-- Modelled from the spec: the collaborate-mode run of agno's Team is not
among the repository sources.  The spec states the same prompt is broadcast
to every member and each member's backend result is collected tagged by
member identity, in whatever order the backend calls complete. -/
def collectMemberResults (backend : Role → Except String String)
    (completionOrder : List Role) : List (Role × Except String String) :=
  completionOrder.map fun r => (r, backend r)

/-- The result collected for a given member, if any. -/
def findResult (pool : List (Role × Except String String)) (r : Role) :
    Option (Except String String) :=
  match pool with
  | [] => none
  | (k, v) :: rest => if k = r then some v else findResult rest r

/-- Modelled from the spec: the synthesis step walks the declared membership
order and emits one section per member whose backend call succeeded,
independent of the order in which results were collected. -/
def memberSections (pool : List (Role × Except String String)) :
    List (Role × String) :=
  teamMembers.filterMap fun r =>
    match findResult pool r with
    | some (Except.ok t) => some (r, t)
    | _ => none

/-- Modelled from the spec: the member sections of the report synthesized by
one Team.run whose member backend calls complete in completionOrder. -/
def teamRunSections (backend : Role → Except String String)
    (completionOrder : List Role) : List (Role × String) :=
  memberSections (collectMemberResults backend completionOrder)

/-! ## The interactive driver (source/app.py) -/

/-- A streamed chunk of the agno run response: an object carrying a content
attribute. -/
structure Chunk where
  content : String
deriving Repr, DecidableEq

/-- A Python value flowing through the generate generator: either a chunk
object, which has a content attribute, or a plain string, which has none. -/
inductive PyVal where
  | chunkVal (c : Chunk)
  | strVal (s : String)
deriving Repr, DecidableEq

/-- The iterable handed to generate: either the run-response stream of
chunks, or a plain Python string. -/
inductive PyIterable where
  | chunks (cs : List Chunk)
  | str (s : String)
deriving Repr, DecidableEq

/-- Python iteration: iterating a chunk stream yields the chunk objects, and
iterating a string yields its characters as one-character strings. -/
def pyIterate : PyIterable → List PyVal
  | .chunks cs => cs.map PyVal.chunkVal
  | .str s => s.toList.map fun c => PyVal.strVal (String.singleton c)

/-- The AttributeError message raised when .content is read off a plain
string. -/
def attributeError : String :=
  "AttributeError: \x27str\x27 object has no attribute \x27content\x27"

/-- Python attribute access chunk.content on line 45 of source/app.py:
succeeds on chunk objects and raises AttributeError on plain strings. -/
def contentAttr : PyVal → Except String String
  | .chunkVal c => .ok c.content
  | .strVal _ => .error attributeError

/-- Consuming the generate generator to the end: the content attribute of
each element in order, or the exception raised at the first element without
one. -/
def generate : List PyVal → Except String (List String)
  | [] => .ok []
  | v :: rest =>
    match contentAttr v with
    | .error e => .error e
    | .ok c =>
      match generate rest with
      | .error e => .error e
      | .ok cs => .ok (c :: cs)

/-- External effects of one /team request: fetching the X-Session-ID request
header (a step that runs before session_id is bound, so its failure leaves
session_id unbound), the input query argument, and the orchestration
(create_team plus team.run) for a given session id and input, which either
raises or yields the chunk stream. -/
structure InteractiveEnv where
  headerGet : Except String (Option String)
  input : Option String
  teamRun : String → Option String → Except String (List Chunk)

/-- Lines 19-23 of source/app.py: keep the caller-supplied session id when
it is present and non-empty (Python truthiness of the header value),
otherwise use the freshly minted uuid. -/
def effectiveSessionId (hdr : Option String) (fresh : String) : String :=
  match hdr with
  | none => fresh
  | some s => if s = "" then fresh else s

/-- The apologetic message built in the except branch of ask_team. -/
def apology (e : String) : String :=
  "I\x27m sorry, but something went wrong. (" ++ e ++ ")"

/-- Outcome of the ask_team handler: a response holding the body iterable
(streamed through generate only when the response is consumed) and the
X-Session-ID response header, or the NameError raised inside the except
branch when session_id was never bound. -/
inductive HandlerResult where
  | response (body : PyIterable) (sessionId : String)
  | nameError (msg : String)
deriving Repr, DecidableEq

/-- Embedding of ask_team in source/app.py.  fresh is the uuid that
str(uuid.uuid4()) would mint for this request.  If fetching the header
raises, the except branch reads the unbound session_id and raises NameError;
otherwise the session id is resolved, and the try block either returns the
chunk stream or, on an orchestration error, the except branch returns the
apology string as the body, both responses carrying the session header. -/
def ask_team (env : InteractiveEnv) (fresh : String) : HandlerResult :=
  match env.headerGet with
  | .error _ => .nameError "name \x27session_id\x27 is not defined"
  | .ok hdr =>
    let sid := effectiveSessionId hdr fresh
    match env.teamRun sid env.input with
    | .ok chunks => .response (.chunks chunks) sid
    | .error e => .response (.str (apology e)) sid

/-- The X-Session-ID response header of a handler outcome. -/
def sessionIdOf : HandlerResult → Option String
  | .response _ sid => some sid
  | .nameError _ => none

/-! ## The image endpoint (lines 48-60 of source/app.py) -/

/-- Modelled from the spec: the single well-known generated-image file path
IMAGE_PATH, defined in the helpers module that is not among the repository
sources. -/
def IMAGE_PATH : String := "generated_image.png"

/-- The file system visible to the /image handler: an association list from
path to file bytes, most recent write first. -/
structure FileSystem where
  files : List (String × List Nat)
deriving Repr, DecidableEq

/-- The base64 alphabet used by base64.b64encode. -/
def b64Alphabet : List Char :=
  "ABCDEFGHIJKLMNOPQRSTUVWXYZabcdefghijklmnopqrstuvwxyz0123456789+/".toList

/-- One base64 digit. -/
def b64Char (n : Nat) : Char := b64Alphabet.getD n '?'

/-- Embedding of base64.b64encode over a byte list (RFC 4648, with =
padding), as called on line 56 of source/app.py. -/
def base64Encode : List Nat → String
  | [] => ""
  | [a] =>
    String.mk [b64Char (a / 4 % 64), b64Char (a % 4 * 16), '=', '=']
  | [a, b] =>
    String.mk [b64Char (a / 4 % 64), b64Char (a % 4 * 16 + b / 16 % 16),
      b64Char (b % 16 * 4), '=']
  | a :: b :: c :: rest =>
    String.mk [b64Char (a / 4 % 64), b64Char (a % 4 * 16 + b / 16 % 16),
      b64Char (b % 16 * 4 + c / 64 % 4), b64Char (c % 64)] ++ base64Encode rest

/-- A Flask Response for the /image endpoint: default status 200 and the
body string. -/
structure ImageResponse where
  status : Nat
  body : String
deriving Repr, DecidableEq

/-- Embedding of get_image in source/app.py: when the well-known file
exists its bytes are read, the data URI is built, the file is removed and
the URI returned; otherwise the initial empty src is returned.  Flask's
Response constructor gives status 200 in both cases.  The pair is the file
system after the call and the response. -/
def get_image (fs : FileSystem) : FileSystem × ImageResponse :=
  match fs.files.lookup IMAGE_PATH with
  | some bytes =>
    (⟨fs.files.filter fun p => p.1 != IMAGE_PATH⟩,
      ⟨200, "data:image/png;base64," ++ base64Encode bytes⟩)
  | none => (fs, ⟨200, ""⟩)

/-! ## Theorems about the team, the /team handler and the /image handler -/

theorem findResult_collect (backend : Role → Except String String)
    (order : List Role) (r : Role) (hr : r ∈ order) :
    findResult (collectMemberResults backend order) r = some (backend r) := by
  induction order with
  | nil => cases hr
  | cons a rest ih =>
    rcases List.mem_cons.mp hr with h | h
    · subst h; simp [collectMemberResults, findResult]
    · by_cases hra : a = r
      · subst hra; simp [collectMemberResults, findResult]
      · simpa [collectMemberResults, findResult, hra] using ih h

/-- C3: when all three member backend calls succeed, the synthesized report
carries exactly three member sections, in the fixed declared membership
order security, debugging, optimization, for every completion order of the
backend calls. -/
theorem team_sections_fixed_order (backend : Role → Except String String)
    (out : Role → String) (completionOrder : List Role)
    (hperm : completionOrder.Perm teamMembers)
    (hok : ∀ r, backend r = .ok (out r)) :
    teamRunSections backend completionOrder =
      [(Role.security, out Role.security), (Role.debugging, out Role.debugging),
        (Role.optimization, out Role.optimization)] ∧
    (teamRunSections backend completionOrder).map Prod.fst = teamMembers ∧
    (teamRunSections backend completionOrder).length = 3 := by
  have hmem : ∀ r : Role, r ∈ completionOrder := by
    intro r
    have h : r ∈ teamMembers := by cases r <;> simp [teamMembers]
    exact hperm.symm.subset h
  have hfind : ∀ r : Role,
      findResult (collectMemberResults backend completionOrder) r = some (backend r) :=
    fun r => findResult_collect backend completionOrder r (hmem r)
  have hmain : teamRunSections backend completionOrder =
      [(Role.security, out Role.security), (Role.debugging, out Role.debugging),
        (Role.optimization, out Role.optimization)] := by
    simp [teamRunSections, memberSections, teamMembers, hfind, hok]
  exact ⟨hmain, by rw [hmain]; rfl, by rw [hmain]; rfl⟩

theorem team_sections_fixed_order_witness :
    ([Role.optimization, Role.debugging, Role.security].Perm teamMembers) ∧
    (teamRunSections (fun _ => .ok "findings")
        [Role.optimization, Role.debugging, Role.security] =
      [(Role.security, "findings"), (Role.debugging, "findings"),
        (Role.optimization, "findings")] ∧
    (teamRunSections (fun _ => .ok "findings")
        [Role.optimization, Role.debugging, Role.security]).map Prod.fst =
      teamMembers ∧
    (teamRunSections (fun _ => .ok "findings")
        [Role.optimization, Role.debugging, Role.security]).length = 3) :=
  ⟨by decide,
    team_sections_fixed_order _ (fun _ => "findings") _ (by decide) (fun _ => rfl)⟩

theorem sessionIdOf_ask_team (env : InteractiveEnv) (hdr : Option String)
    (fresh : String) (h : env.headerGet = .ok hdr) :
    sessionIdOf (ask_team env fresh) = some (effectiveSessionId hdr fresh) := by
  unfold ask_team
  rw [h]
  rcases henv : env.teamRun (effectiveSessionId hdr fresh) env.input with e | cs <;>
    simp [henv, sessionIdOf]

/-- C6: every /team request whose orchestration succeeds gets a response
whose X-Session-ID header is the effective session token: the supplied one
when the request header is present and non-empty, a freshly minted token
otherwise; and two requests without the header, minting tokens from
distinct draws of an injective uuid supply, receive distinct tokens. -/
theorem team_session_header (env₁ env₂ env₃ : InteractiveEnv)
    (s fresh₃ : String) (supply : Nat → String) (n m : Nat)
    (h₃ : env₃.headerGet = .ok (some s)) (hs : s ≠ "")
    (h₁ : env₁.headerGet = .ok none) (h₂ : env₂.headerGet = .ok none)
    (_hrun₃ : ∃ cs, env₃.teamRun s env₃.input = .ok cs)
    (_hrun₁ : ∃ cs, env₁.teamRun (supply n) env₁.input = .ok cs)
    (_hrun₂ : ∃ cs, env₂.teamRun (supply m) env₂.input = .ok cs)
    (hinj : Function.Injective supply) (hnm : n ≠ m) :
    sessionIdOf (ask_team env₃ fresh₃) = some s ∧
    sessionIdOf (ask_team env₁ (supply n)) = some (supply n) ∧
    sessionIdOf (ask_team env₂ (supply m)) = some (supply m) ∧
    sessionIdOf (ask_team env₁ (supply n)) ≠ sessionIdOf (ask_team env₂ (supply m)) := by
  have e₃ : effectiveSessionId (some s) fresh₃ = s := by
    simp [effectiveSessionId, hs]
  have e₁ : effectiveSessionId none (supply n) = supply n := rfl
  have e₂ : effectiveSessionId none (supply m) = supply m := rfl
  have k₃ := sessionIdOf_ask_team env₃ (some s) fresh₃ h₃
  have k₁ := sessionIdOf_ask_team env₁ none (supply n) h₁
  have k₂ := sessionIdOf_ask_team env₂ none (supply m) h₂
  rw [e₃] at k₃
  rw [e₁] at k₁
  rw [e₂] at k₂
  refine ⟨k₃, k₁, k₂, ?_⟩
  rw [k₁, k₂]
  intro hcontra
  exact hnm (hinj (Option.some_injective _ hcontra))

theorem replicate_u_injective :
    Function.Injective (fun k => String.mk (List.replicate k 'u')) := by
  intro a b h
  have h2 := congrArg String.length h
  simpa [String.length] using h2

theorem team_session_header_witness :
    ((InteractiveEnv.mk (.ok (some "sid-7")) (some "query")
        (fun _ _ => .ok [⟨"hello"⟩])).headerGet = .ok (some "sid-7")) ∧
    ("sid-7" ≠ "") ∧
    ((InteractiveEnv.mk (.ok none) (some "query")
        (fun _ _ => .ok [⟨"hello"⟩])).headerGet = .ok none) ∧
    Function.Injective (fun k => String.mk (List.replicate k 'u')) ∧
    (0 ≠ 1) ∧
    (sessionIdOf (ask_team (InteractiveEnv.mk (.ok (some "sid-7")) (some "query")
        (fun _ _ => .ok [⟨"hello"⟩])) "f3") = some "sid-7" ∧
    sessionIdOf (ask_team (InteractiveEnv.mk (.ok none) (some "query")
        (fun _ _ => .ok [⟨"hello"⟩]))
        ((fun k => String.mk (List.replicate k 'u')) 0)) =
      some ((fun k => String.mk (List.replicate k 'u')) 0) ∧
    sessionIdOf (ask_team (InteractiveEnv.mk (.ok none) (some "query")
        (fun _ _ => .ok [⟨"hello"⟩]))
        ((fun k => String.mk (List.replicate k 'u')) 1)) =
      some ((fun k => String.mk (List.replicate k 'u')) 1) ∧
    sessionIdOf (ask_team (InteractiveEnv.mk (.ok none) (some "query")
        (fun _ _ => .ok [⟨"hello"⟩]))
        ((fun k => String.mk (List.replicate k 'u')) 0)) ≠
      sessionIdOf (ask_team (InteractiveEnv.mk (.ok none) (some "query")
        (fun _ _ => .ok [⟨"hello"⟩]))
        ((fun k => String.mk (List.replicate k 'u')) 1))) :=
  ⟨rfl, by decide, rfl, replicate_u_injective, by decide,
    team_session_header _ _ _ "sid-7" "f3" _ 0 1 rfl (by decide) rfl rfl
      ⟨[⟨"hello"⟩], rfl⟩ ⟨[⟨"hello"⟩], rfl⟩ ⟨[⟨"hello"⟩], rfl⟩
      replicate_u_injective (by decide)⟩

/-- C7: an exception raised during orchestration after the session token is
resolved still yields a well-formed apologetic streamed response carrying
the X-Session-ID header; but when fetching the header itself raises, the
except branch references the unbound session_id and the handler raises
NameError instead of returning a response. -/
theorem team_degraded_response_on_error (enva envb : InteractiveEnv)
    (fresh freshb e eb : String) (hdr : Option String)
    (hha : enva.headerGet = .ok hdr)
    (hrun : enva.teamRun (effectiveSessionId hdr fresh) enva.input = .error e)
    (hhb : envb.headerGet = .error eb) :
    ask_team enva fresh =
      .response (.str (apology e)) (effectiveSessionId hdr fresh) ∧
    sessionIdOf (ask_team enva fresh) = some (effectiveSessionId hdr fresh) ∧
    ask_team envb freshb = .nameError "name \x27session_id\x27 is not defined" := by
  have hmain : ask_team enva fresh =
      .response (.str (apology e)) (effectiveSessionId hdr fresh) := by
    unfold ask_team
    rw [hha]
    simp [hrun]
  refine ⟨hmain, by rw [hmain]; rfl, ?_⟩
  unfold ask_team
  rw [hhb]

theorem team_degraded_response_on_error_witness :
    ((InteractiveEnv.mk (.ok (some "sid-7")) (some "query")
        (fun _ _ => .error "backend down")).headerGet = .ok (some "sid-7")) ∧
    ((InteractiveEnv.mk (.error "header failure") (some "query")
        (fun _ _ => .ok [])).headerGet = .error "header failure") ∧
    (ask_team (InteractiveEnv.mk (.ok (some "sid-7")) (some "query")
        (fun _ _ => .error "backend down")) "f3" =
      .response (.str (apology "backend down"))
        (effectiveSessionId (some "sid-7") "f3") ∧
    sessionIdOf (ask_team (InteractiveEnv.mk (.ok (some "sid-7")) (some "query")
        (fun _ _ => .error "backend down")) "f3") =
      some (effectiveSessionId (some "sid-7") "f3") ∧
    ask_team (InteractiveEnv.mk (.error "header failure") (some "query")
        (fun _ _ => .ok [])) "f4" =
      .nameError "name \x27session_id\x27 is not defined") :=
  ⟨rfl, rfl,
    team_degraded_response_on_error _ _ "f3" "f4" "backend down" "header failure"
      (some "sid-7") rfl rfl rfl⟩

theorem generate_strVal_cons (s : String) (rest : List PyVal) :
    generate (PyVal.strVal s :: rest) = .error attributeError := rfl

/-- C10: when orchestration raises after the session token is resolved, the
except branch passes the plain apology string to the generate generator;
every element iterated from it is a one-character string, and reading its
content attribute while the stream is consumed raises AttributeError, so
consuming the degraded response fails instead of delivering the apology. -/
theorem degraded_stream_attribute_error (env : InteractiveEnv)
    (fresh e : String) (hdr : Option String)
    (hh : env.headerGet = .ok hdr)
    (hrun : env.teamRun (effectiveSessionId hdr fresh) env.input = .error e) :
    ask_team env fresh =
      .response (.str (apology e)) (effectiveSessionId hdr fresh) ∧
    (∀ v ∈ pyIterate (.str (apology e)),
      ∃ c : Char, v = PyVal.strVal (String.singleton c)) ∧
    generate (pyIterate (.str (apology e))) = .error attributeError := by
  refine ⟨?_, ?_, ?_⟩
  · unfold ask_team
    rw [hh]
    simp [hrun]
  · intro v hv
    simp only [pyIterate, List.mem_map] at hv
    obtain ⟨c, _, rfl⟩ := hv
    exact ⟨c, rfl⟩
  · have hcons : (apology e).toList =
        'I' :: (("\x27m sorry, but something went wrong. (".toList ++ e.toList) ++
          [')']) := rfl
    have hpy : pyIterate (.str (apology e)) =
        PyVal.strVal (String.singleton 'I') ::
          ((("\x27m sorry, but something went wrong. (".toList ++ e.toList) ++
            [')']).map fun c => PyVal.strVal (String.singleton c)) := by
      simp only [pyIterate, hcons, List.map_cons]
    rw [hpy]
    exact generate_strVal_cons _ _

theorem degraded_stream_attribute_error_witness :
    ((InteractiveEnv.mk (.ok none) (some "query")
        (fun _ _ => .error "backend down")).headerGet = .ok none) ∧
    (ask_team (InteractiveEnv.mk (.ok none) (some "query")
        (fun _ _ => .error "backend down")) "f5" =
      .response (.str (apology "backend down")) (effectiveSessionId none "f5") ∧
    (∀ v ∈ pyIterate (.str (apology "backend down")),
      ∃ c : Char, v = PyVal.strVal (String.singleton c)) ∧
    generate (pyIterate (.str (apology "backend down"))) = .error attributeError) :=
  ⟨rfl, degraded_stream_attribute_error _ "f5" "backend down" none rfl rfl⟩

theorem lookup_filter_ne {β : Type} (l : List (String × β)) (k : String) :
    (l.filter fun p => p.1 != k).lookup k = none := by
  induction l with
  | nil => rfl
  | cons a rest ih =>
    obtain ⟨x, v⟩ := a
    by_cases h : x = k
    · have hdrop : ((x, v) :: rest).filter (fun p => p.1 != k) =
          rest.filter (fun p => p.1 != k) := by
        simp [List.filter_cons, h]
      rw [hdrop]
      exact ih
    · have hkeep : ((x, v) :: rest).filter (fun p => p.1 != k) =
          (x, v) :: rest.filter (fun p => p.1 != k) := by
        simp [List.filter_cons, h]
      have hk : (k == x) = false := by
        simp only [beq_eq_false_iff_ne, ne_eq]
        exact fun hh => h hh.symm
      rw [hkeep]
      simpa [List.lookup, hk] using ih

/-- C8: a /image request while the image file exists returns status 200 with
body equal to the data URI built from the base64 encoding of the file
bytes, the file is deleted before returning, and an immediately repeated
request returns status 200 with an empty body. -/
theorem image_one_shot (fs : FileSystem) (bytes : List Nat)
    (h : fs.files.lookup IMAGE_PATH = some bytes) :
    (get_image fs).2.status = 200 ∧
    (get_image fs).2.body = "data:image/png;base64," ++ base64Encode bytes ∧
    (get_image fs).1.files.lookup IMAGE_PATH = none ∧
    (get_image (get_image fs).1).2.status = 200 ∧
    (get_image (get_image fs).1).2.body = "" := by
  have h1 : get_image fs =
      (⟨fs.files.filter fun p => p.1 != IMAGE_PATH⟩,
        ⟨200, "data:image/png;base64," ++ base64Encode bytes⟩) := by
    unfold get_image
    rw [h]
  have h2 : (get_image fs).1.files.lookup IMAGE_PATH = none := by
    rw [h1]
    exact lookup_filter_ne fs.files IMAGE_PATH
  have h3 : get_image ((get_image fs).1) = ((get_image fs).1, ⟨200, ""⟩) := by
    generalize hg : (get_image fs).1 = g at h2 ⊢
    unfold get_image
    rw [h2]
  exact ⟨by rw [h1], by rw [h1], h2, by rw [h3], by rw [h3]⟩

theorem image_one_shot_witness :
    (FileSystem.mk [(IMAGE_PATH, [137, 80, 78, 71])]).files.lookup IMAGE_PATH =
      some [137, 80, 78, 71] ∧
    ((get_image (FileSystem.mk [(IMAGE_PATH, [137, 80, 78, 71])])).2.status = 200 ∧
    (get_image (FileSystem.mk [(IMAGE_PATH, [137, 80, 78, 71])])).2.body =
      "data:image/png;base64," ++ base64Encode [137, 80, 78, 71] ∧
    (get_image (FileSystem.mk
        [(IMAGE_PATH, [137, 80, 78, 71])])).1.files.lookup IMAGE_PATH = none ∧
    (get_image (get_image (FileSystem.mk
        [(IMAGE_PATH, [137, 80, 78, 71])])).1).2.status = 200 ∧
    (get_image (get_image (FileSystem.mk
        [(IMAGE_PATH, [137, 80, 78, 71])])).1).2.body = "") :=
  ⟨by decide, image_one_shot _ [137, 80, 78, 71] (by decide)⟩

/-- C9: a /image request while the image file does not exist returns status
200 with an empty body and leaves the file system exactly unchanged. -/
theorem image_absent_no_mutation (fs : FileSystem)
    (h : fs.files.lookup IMAGE_PATH = none) :
    (get_image fs).1 = fs ∧ (get_image fs).2 = ⟨200, ""⟩ := by
  unfold get_image
  rw [h]
  exact ⟨rfl, rfl⟩

theorem image_absent_no_mutation_witness :
    (FileSystem.mk [("reports/app.md", [65])]).files.lookup IMAGE_PATH = none ∧
    ((get_image (FileSystem.mk [("reports/app.md", [65])])).1 =
      FileSystem.mk [("reports/app.md", [65])] ∧
    (get_image (FileSystem.mk [("reports/app.md", [65])])).2 = ⟨200, ""⟩) :=
  ⟨by decide, image_absent_no_mutation _ (by decide)⟩

end AgenticAI
